import Mathlib

/-
Verification of the restaurant-enrichment pipeline of `RestaurantMap.tsx`.

The source is translated into a shallow embedding:
  * coordinates and cloud-cover percentages are modelled as rationals;
  * each external collaborator call is modelled by the data it delivers to
    the caller, with `none` standing for a failed call (the source catches
    every such failure locally);
  * the transcendental geodesic helpers `calculateBearing` and
    `calculateNewCoords` (pure float math, lines 47-72) are abstracted as
    function parameters of the pipeline, since no verified property depends
    on their numeric values;
  * the planar distance of `findNearestRoad` (line 149,
    `Math.sqrt((dlat)^2 + (dlon)^2)`) is modelled by its radicand `dist2`:
    the square root is strictly monotone on nonnegative arguments, so the
    comparisons `distance < minDistance` performed by the source coincide
    with comparisons of the radicands; the minimality theorems are stated
    with `Real.sqrt` applied to `dist2` to match the source distance.
-/

namespace ShadeSpot

/-- A latitude/longitude pair in degrees, as the `{lat, lng}` objects of the
source. -/
structure GeoPoint where
  lat : ℚ
  lng : ℚ
deriving DecidableEq

/-- One element of the Overpass road response: a way that may or may not
carry a `geometry` vertex list (the source guards with `if (way.geometry)`,
line 147). -/
structure RoadWay where
  geometry : Option (List GeoPoint)
deriving DecidableEq

/-- The radicand of the planar distance computed at lines 149-151 of the
source: `(point.lat - lat)^2 + (point.lon - lng)^2`. -/
def dist2 (lat lng : ℚ) (point : GeoPoint) : ℚ :=
  (point.lat - lat) ^ 2 + (point.lng - lng) ^ 2

/-- One iteration of the vertex scan of `findNearestRoad` (lines 148-156):
the accumulator is `(closestPoint, minDistance)`, with `none` standing for
the initial `Infinity`, against which every distance compares smaller. -/
def scanStep (lat lng : ℚ) (acc : GeoPoint × Option ℚ) (point : GeoPoint) :
    GeoPoint × Option ℚ :=
  let distance := dist2 lat lng point
  match acc.2 with
  | none => (point, some distance)
  | some minDistance =>
      if distance < minDistance then (point, some distance) else acc

/-- `findNearestRoad` (lines 118-165). `resp` is the road collaborator
response: `none` models a failed fetch (caught at line 161), `some elements`
a parsed `data.elements` array. -/
def findNearestRoad (lat lng : ℚ) (resp : Option (List RoadWay)) : GeoPoint :=
  match resp with
  | none => ⟨lat, lng⟩
  | some elements =>
      if elements.isEmpty then ⟨lat, lng⟩
      else
        (elements.foldl (fun acc way =>
          match way.geometry with
          | none => acc
          | some pts => pts.foldl (scanStep lat lng) acc)
          (⟨lat, lng⟩, none)).1

/-- All vertices of all returned road geometries, in response order: the
sequence of points visited by the nested `forEach` loops of lines 146-158. -/
def roadVertices : List RoadWay → List GeoPoint
  | [] => []
  | way :: rest => way.geometry.getD [] ++ roadVertices rest

/-- `r` is the first-encountered vertex of `vs` of minimal squared distance
from `(lat, lng)`: it occurs in `vs`, no vertex is strictly closer, and
every vertex before its occurrence is strictly farther. -/
def FirstMinAt (lat lng : ℚ) (vs : List GeoPoint) (r : GeoPoint) : Prop :=
  ∃ l₁ l₂, vs = l₁ ++ r :: l₂
    ∧ (∀ v ∈ vs, dist2 lat lng r ≤ dist2 lat lng v)
    ∧ (∀ v ∈ l₁, dist2 lat lng r < dist2 lat lng v)

lemma roadVertices_nil_of_noGeometry (elements : List RoadWay)
    (h : ∀ w ∈ elements, w.geometry = none) : roadVertices elements = [] := by
  induction elements with
  | nil => rfl
  | cons way rest ih =>
      have hw : way.geometry = none := h way (List.mem_cons_self way rest)
      have hr : roadVertices rest = [] :=
        ih (fun w hmem => h w (List.mem_cons_of_mem _ hmem))
      simp [roadVertices, hw, hr]

lemma foldl_geometry_eq (lat lng : ℚ) (elements : List RoadWay) :
    ∀ acc : GeoPoint × Option ℚ,
      elements.foldl (fun acc way =>
        match way.geometry with
        | none => acc
        | some pts => pts.foldl (scanStep lat lng) acc) acc
      = (roadVertices elements).foldl (scanStep lat lng) acc := by
  induction elements with
  | nil => intro acc; rfl
  | cons way rest ih =>
      intro acc
      rw [List.foldl_cons, ih]
      cases hg : way.geometry with
      | none => simp [roadVertices, hg]
      | some pts => simp [roadVertices, hg, List.foldl_append]

lemma foldl_scanStep_some (lat lng : ℚ) :
    ∀ (vs : List GeoPoint) (b : GeoPoint),
      ∃ r, vs.foldl (scanStep lat lng) (b, some (dist2 lat lng b))
            = (r, some (dist2 lat lng r))
        ∧ FirstMinAt lat lng (b :: vs) r := by
  intro vs
  induction vs with
  | nil =>
      intro b
      refine ⟨b, rfl, [], [], rfl, ?_, ?_⟩
      · intro v hv
        have hv : v = b := by simpa using hv
        simp [hv]
      · intro v hv
        simp at hv
  | cons p rest ih =>
      intro b
      by_cases h : dist2 lat lng p < dist2 lat lng b
      · have hstep : scanStep lat lng (b, some (dist2 lat lng b)) p
            = (p, some (dist2 lat lng p)) := by
          simp [scanStep, h]
        obtain ⟨r, heq, l₁, l₂, hsplit, hmin, hstrict⟩ := ih p
        refine ⟨r, ?_, b :: l₁, l₂, ?_, ?_, ?_⟩
        · rw [List.foldl_cons, hstep, heq]
        · simp [hsplit]
        · intro v hv
          rcases List.mem_cons.mp hv with hb | hmem
          · have hrp : dist2 lat lng r ≤ dist2 lat lng p :=
              hmin p (List.mem_cons_self p rest)
            exact hb ▸ le_of_lt (lt_of_le_of_lt hrp h)
          · exact hmin v hmem
        · intro v hv
          rcases List.mem_cons.mp hv with hb | hmem
          · have hrp : dist2 lat lng r ≤ dist2 lat lng p :=
              hmin p (List.mem_cons_self p rest)
            exact hb ▸ lt_of_le_of_lt hrp h
          · exact hstrict v hmem
      · have hstep : scanStep lat lng (b, some (dist2 lat lng b)) p
            = (b, some (dist2 lat lng b)) := by
          simp [scanStep, h]
        obtain ⟨r, heq, l₁, l₂, hsplit, hmin, hstrict⟩ := ih b
        refine ⟨r, ?_, ?_⟩
        · rw [List.foldl_cons, hstep, heq]
        · cases l₁ with
          | nil =>
              obtain ⟨hb, hl⟩ : b = r ∧ rest = l₂ := by simpa using hsplit
              refine ⟨[], p :: rest, by simp [hb], ?_, by simp⟩
              intro v hv
              rcases List.mem_cons.mp hv with h1 | hmem
              · simp [h1, ← hb]
              · rcases List.mem_cons.mp hmem with h2 | hmem2
                · rw [h2, ← hb]
                  exact le_of_not_lt h
                · exact hmin v (List.mem_cons_of_mem _ hmem2)
          | cons a l₁ =>
              obtain ⟨hab, hrest⟩ : b = a ∧ rest = l₁ ++ r :: l₂ := by
                simpa using hsplit
              have hrb : dist2 lat lng r < dist2 lat lng b := by
                rw [hab]
                exact hstrict a (List.mem_cons_self a l₁)
              refine ⟨b :: p :: l₁, l₂, by simp [hrest], ?_, ?_⟩
              · intro v hv
                rcases List.mem_cons.mp hv with h1 | hmem
                · exact h1 ▸ le_of_lt hrb
                · rcases List.mem_cons.mp hmem with h2 | hmem2
                  · exact h2 ▸ le_of_lt (lt_of_lt_of_le hrb (le_of_not_lt h))
                  · exact hmin v (List.mem_cons_of_mem _ hmem2)
              · intro v hv
                rcases List.mem_cons.mp hv with h1 | hmem
                · exact h1 ▸ hrb
                · rcases List.mem_cons.mp hmem with h2 | hmem2
                  · exact h2 ▸ lt_of_lt_of_le hrb (le_of_not_lt h)
                  · exact hstrict v (List.mem_cons_of_mem _ hmem2)

lemma foldl_scanStep_start (lat lng : ℚ) (init : GeoPoint)
    (vs : List GeoPoint) (hvs : vs ≠ []) :
    ∃ r, vs.foldl (scanStep lat lng) (init, none) = (r, some (dist2 lat lng r))
      ∧ FirstMinAt lat lng vs r := by
  cases vs with
  | nil => exact absurd rfl hvs
  | cons p rest =>
      obtain ⟨r, heq, hfm⟩ := foldl_scanStep_some lat lng rest p
      exact ⟨r, by rw [List.foldl_cons]; exact heq, hfm⟩

lemma findNearestRoad_of_nilVertices (lat lng : ℚ) (elements : List RoadWay)
    (h : roadVertices elements = []) :
    findNearestRoad lat lng (some elements) = ⟨lat, lng⟩ := by
  unfold findNearestRoad
  by_cases he : elements.isEmpty
  · simp [he]
  · simp only [he, if_false, Bool.false_eq_true]
    rw [foldl_geometry_eq, h]
    rfl

lemma dist2_nonneg (lat lng : ℚ) (p : GeoPoint) : 0 ≤ dist2 lat lng p := by
  unfold dist2
  positivity

/-- `ShadeStatus` of the source (`'shade' | 'no_shade'`). -/
inductive ShadeStatus
  | shade
  | no_shade
deriving DecidableEq

/-- `CloudStatus` of the source (`'cloudy' | 'not_cloudy'`). -/
inductive CloudStatus
  | cloudy
  | not_cloudy
deriving DecidableEq

/-- `SunnyStatus` of the source (`'sunny' | 'not_sunny'`). -/
inductive SunnyStatus
  | sunny
  | not_sunny
deriving DecidableEq

/-- The ambient state consulted by `checkShadowStatus`: whether the
`shadowSimulator` ref holds an instance (line 191), the local hour of
`new Date()` (line 197), and the outcome of the oracle call
`getShadowInfo` (line 209) — `some b` is a result whose coerced
`shadowInfo && shadowInfo.inShadow` is `b`, `none` a thrown error, which the
source catches at line 217. -/
structure ShadowCtx where
  simInit : Bool
  hour : ℕ
  oracleResult : Option Bool
deriving DecidableEq

/-- `checkShadowStatus` (lines 187-230). The null-simulator check comes
first (lines 191-194), before the nighttime rule (lines 200-203); an oracle
error falls back to the hour heuristic of lines 220-228. -/
def checkShadowStatus (ctx : ShadowCtx) (lat lng : ℚ) : ShadeStatus :=
  if ctx.simInit = false then ShadeStatus.no_shade
  else if ctx.hour < 6 ∨ ctx.hour > 20 then ShadeStatus.shade
  else
    match ctx.oracleResult with
    | some isInShadow =>
        if isInShadow then ShadeStatus.shade else ShadeStatus.no_shade
    | none =>
        if ctx.hour < 9 ∨ ctx.hour > 17 then ShadeStatus.shade
        else ShadeStatus.no_shade

/-- The `Weather` record of the source (line 27). -/
structure Weather where
  cloudcover : ℚ
deriving DecidableEq

/-- `getWeatherData` (lines 168-184): `some c` models a successful fetch
whose `data.current?.cloudcover || 0` coalesces to `c`; `none` models a
failed fetch, caught at line 180 with default cover `0`. -/
def getWeatherData (resp : Option ℚ) : Weather :=
  match resp with
  | some cloudcover => { cloudcover := cloudcover }
  | none => { cloudcover := 0 }

/-- The cloud classification of line 257:
`weather.cloudcover > 20 ? 'cloudy' : 'not_cloudy'`. -/
def cloudStatusOf (weather : Weather) : CloudStatus :=
  if weather.cloudcover > 20 then CloudStatus.cloudy else CloudStatus.not_cloudy

/-- The sunny classification of line 260:
`shadeStatus === 'no_shade' && cloudStatus === 'not_cloudy' ? 'sunny' : 'not_sunny'`. -/
def sunnyStatusOf (shadeStatus : ShadeStatus) (cloudStatus : CloudStatus) :
    SunnyStatus :=
  if shadeStatus = ShadeStatus.no_shade ∧ cloudStatus = CloudStatus.not_cloudy
  then SunnyStatus.sunny else SunnyStatus.not_sunny

/-- Claim C3, counterexample: at local hour 22 (> 20) with the shadow
simulator reference uninitialized, `checkShadowStatus` returns `no_shade`,
not `shade` — the null-simulator check of lines 191-194 precedes the
nighttime rule, so the nighttime rule is not unconditional over the
oracle's state. -/
theorem checkShadowStatus_night_null_sim :
    (20 : ℕ) < 22
    ∧ checkShadowStatus ⟨false, 22, some false⟩ 0 0 = ShadeStatus.no_shade
    ∧ checkShadowStatus ⟨false, 22, some false⟩ 0 0 ≠ ShadeStatus.shade := by
  refine ⟨by decide, rfl, by decide⟩

/-- Claim C3, amended: whenever the shadow simulator reference is
initialized, any timestamp whose local hour is < 6 or > 20 makes
`checkShadowStatus` return `shade`, regardless of the oracle's result and
without consulting it. -/
theorem checkShadowStatus_night (ctx : ShadowCtx) (lat lng : ℚ)
    (hinit : ctx.simInit = true) (hh : ctx.hour < 6 ∨ ctx.hour > 20) :
    checkShadowStatus ctx lat lng = ShadeStatus.shade := by
  unfold checkShadowStatus
  rw [hinit]
  simp [hh]

/-- Claim C3 witness: the amended nighttime rule at hour 22 with an
initialized simulator whose oracle would report "not in shadow". -/
theorem checkShadowStatus_night_witness :
    checkShadowStatus ⟨true, 22, some false⟩ 0 0 = ShadeStatus.shade :=
  checkShadowStatus_night ⟨true, 22, some false⟩ 0 0 rfl (Or.inr (by decide))

/-- Claim C9: whenever the shadow simulator reference is uninitialized
(`null`), `checkShadowStatus` returns `no_shade`, for every location, every
hour — nighttime included — and every oracle result. -/
theorem checkShadowStatus_null_sim (ctx : ShadowCtx) (lat lng : ℚ)
    (h : ctx.simInit = false) :
    checkShadowStatus ctx lat lng = ShadeStatus.no_shade := by
  unfold checkShadowStatus
  rw [h]
  simp

/-- Claim C9 witness: uninitialized simulator at nighttime hour 22 with an
oracle that would report "in shadow" still yields `no_shade`. -/
theorem checkShadowStatus_null_sim_witness :
    checkShadowStatus ⟨false, 22, some true⟩ 3 4 = ShadeStatus.no_shade :=
  checkShadowStatus_null_sim ⟨false, 22, some true⟩ 3 4 rfl

/-- Claim C4: the derived status is `sunny` exactly when the shade status is
`no_shade` and the cloud status is `not_cloudy`; the case split covers all
four combinations. -/
theorem sunnyStatus_iff (s : ShadeStatus) (c : CloudStatus) :
    sunnyStatusOf s c = SunnyStatus.sunny
      ↔ (s = ShadeStatus.no_shade ∧ c = CloudStatus.not_cloudy) := by
  cases s <;> cases c <;> decide

/-- Claim C5: the cloud classification is `cloudy` exactly when the reported
coverage exceeds 20 (so coverage 20 itself yields `not_cloudy`), and a
failed weather call defaults the coverage to 0, yielding `not_cloudy`. -/
theorem cloudStatus_threshold :
    (∀ c : ℚ, cloudStatusOf (getWeatherData (some c)) = CloudStatus.cloudy ↔ 20 < c)
    ∧ cloudStatusOf (getWeatherData (some 20)) = CloudStatus.not_cloudy
    ∧ getWeatherData none = { cloudcover := 0 }
    ∧ cloudStatusOf (getWeatherData none) = CloudStatus.not_cloudy := by
  refine ⟨?_, by decide, rfl, by decide⟩
  intro c
  by_cases h : (20 : ℚ) < c <;> simp [cloudStatusOf, getWeatherData, h]

/-- Claim C6: `findNearestRoad` returns the input location when the
collaborator call fails or no road vertex is returned; otherwise it returns
the vertex minimizing the planar Euclidean distance (the square root of
`dist2`) in raw degree units over every vertex of every returned geometry,
ties broken by first-encountered order: the result splits the vertex list
with every earlier vertex strictly farther. -/
theorem findNearestRoad_nearestVertex (lat lng : ℚ) :
    findNearestRoad lat lng none = ⟨lat, lng⟩
    ∧ (∀ elements, roadVertices elements = [] →
        findNearestRoad lat lng (some elements) = ⟨lat, lng⟩)
    ∧ (∀ elements, roadVertices elements ≠ [] →
        ∃ l₁ l₂,
          roadVertices elements
            = l₁ ++ findNearestRoad lat lng (some elements) :: l₂
          ∧ (∀ v ∈ roadVertices elements,
              Real.sqrt ((dist2 lat lng (findNearestRoad lat lng (some elements)) : ℝ))
                ≤ Real.sqrt ((dist2 lat lng v : ℝ)))
          ∧ (∀ v ∈ l₁,
              Real.sqrt ((dist2 lat lng (findNearestRoad lat lng (some elements)) : ℝ))
                < Real.sqrt ((dist2 lat lng v : ℝ)))) := by
  refine ⟨rfl, fun elements h => findNearestRoad_of_nilVertices lat lng elements h, ?_⟩
  intro elements hne
  have he : elements.isEmpty = false := by
    cases elements with
    | nil => exact absurd rfl hne
    | cons w ws => rfl
  obtain ⟨r, heq, l₁, l₂, hsplit, hmin, hstrict⟩ :=
    foldl_scanStep_start lat lng ⟨lat, lng⟩ (roadVertices elements) hne
  have hfr : findNearestRoad lat lng (some elements) = r := by
    unfold findNearestRoad
    simp only [he, if_false, Bool.false_eq_true]
    rw [foldl_geometry_eq, heq]
  refine ⟨l₁, l₂, by rw [hfr]; exact hsplit, ?_, ?_⟩
  · intro v hv
    rw [hfr]
    exact Real.sqrt_le_sqrt (by exact_mod_cast hmin v hv)
  · intro v hv
    rw [hfr]
    exact Real.sqrt_lt_sqrt (by exact_mod_cast dist2_nonneg lat lng r)
      (by exact_mod_cast hstrict v hv)

/-- A concrete road response used to witness claim C6: one way carrying two
vertices, a geometry-less way, and a second way with one vertex. -/
def elems0 : List RoadWay :=
  [⟨some [⟨1, 1⟩, ⟨0, 1⟩]⟩, ⟨none⟩, ⟨some [⟨2, 0⟩]⟩]

/-- Claim C6 witness: on `elems0` from the origin, the minimizing split
exists as the theorem states. -/
theorem findNearestRoad_nearestVertex_witness :
    ∃ l₁ l₂,
      roadVertices elems0 = l₁ ++ findNearestRoad 0 0 (some elems0) :: l₂
      ∧ (∀ v ∈ roadVertices elems0,
          Real.sqrt ((dist2 0 0 (findNearestRoad 0 0 (some elems0)) : ℝ))
            ≤ Real.sqrt ((dist2 0 0 v : ℝ)))
      ∧ (∀ v ∈ l₁,
          Real.sqrt ((dist2 0 0 (findNearestRoad 0 0 (some elems0)) : ℝ))
            < Real.sqrt ((dist2 0 0 v : ℝ))) :=
  (findNearestRoad_nearestVertex 0 0).2.2 elems0 (by decide)

/-- Claim C10: a non-empty road response in which no way carries a geometry
leaves the closest-point accumulator at its initial value, so
`findNearestRoad` returns the input location unchanged. -/
theorem findNearestRoad_noGeometryWays (lat lng : ℚ) (elements : List RoadWay)
    (hne : elements ≠ []) (hg : ∀ w ∈ elements, w.geometry = none) :
    findNearestRoad lat lng (some elements) = ⟨lat, lng⟩ :=
  findNearestRoad_of_nilVertices lat lng elements
    (roadVertices_nil_of_noGeometry elements hg)

/-- Claim C10 witness: a single geometry-less way returns the input
location. -/
theorem findNearestRoad_noGeometryWays_witness :
    findNearestRoad 1 2 (some [⟨none⟩]) = ⟨1, 2⟩ :=
  findNearestRoad_noGeometryWays 1 2 [⟨none⟩] (by decide) (by decide)

/-- A raw point-of-interest record as produced by `fetchRestaurants`
(lines 101-106). -/
structure Restaurant where
  id : String
  lat : ℚ
  lng : ℚ
  name : String
deriving DecidableEq

/-- A processed record as pushed by `processRestaurants` (lines 262-268):
the raw record (kept by the object spread) extended with the enrichment
fields. -/
structure EnrichedRestaurant where
  base : Restaurant
  terraceCoords : GeoPoint
  shadeStatus : ShadeStatus
  cloudStatus : CloudStatus
  sunnyStatus : SunnyStatus
deriving DecidableEq

/-- Everything the processing of one record observes from the outside
world: the road collaborator response, the shadow context, the weather
collaborator response, and whether some step of the record's try block
throws an error that reaches the per-record catch of line 274. -/
structure RecordEnv where
  roadResp : Option (List RoadWay)
  shadow : ShadowCtx
  weatherResp : Option ℚ
  throws : Bool
deriving DecidableEq

/-- The happy-path body of the per-record try block (lines 247-268).
`calculateBearing` and `calculateNewCoords` are the geodesic helpers of
lines 47-72, abstracted as parameters. -/
def processOne (calculateBearing : ℚ → ℚ → ℚ → ℚ → ℚ)
    (calculateNewCoords : ℚ → ℚ → ℚ → ℚ → GeoPoint)
    (restaurant : Restaurant) (env : RecordEnv) : EnrichedRestaurant :=
  let nearestRoad := findNearestRoad restaurant.lat restaurant.lng env.roadResp
  let bearing := calculateBearing restaurant.lat restaurant.lng nearestRoad.lat nearestRoad.lng
  let terraceCoords := calculateNewCoords restaurant.lat restaurant.lng bearing 5
  let shadeStatus := checkShadowStatus env.shadow terraceCoords.lat terraceCoords.lng
  let weather := getWeatherData env.weatherResp
  let cloudStatus := cloudStatusOf weather
  let sunnyStatus := sunnyStatusOf shadeStatus cloudStatus
  { base := restaurant
    terraceCoords := terraceCoords
    shadeStatus := shadeStatus
    cloudStatus := cloudStatus
    sunnyStatus := sunnyStatus }

/-- The record pushed by the per-record catch branch (lines 277-283): the
raw record with the failure defaults. -/
def failureDefault (restaurant : Restaurant) : EnrichedRestaurant :=
  { base := restaurant
    terraceCoords := ⟨restaurant.lat, restaurant.lng⟩
    shadeStatus := ShadeStatus.no_shade
    cloudStatus := CloudStatus.not_cloudy
    sunnyStatus := SunnyStatus.not_sunny }

/-- The record appended for one input: the catch branch's defaults when some
step throws, the try block's result otherwise. -/
def recordResult (calculateBearing : ℚ → ℚ → ℚ → ℚ → ℚ)
    (calculateNewCoords : ℚ → ℚ → ℚ → ℚ → GeoPoint)
    (restaurant : Restaurant) (env : RecordEnv) : EnrichedRestaurant :=
  if env.throws then failureDefault restaurant
  else processOne calculateBearing calculateNewCoords restaurant env

/-- The mutable state of the `for` loop of lines 241-286: the
`processedCount` React state and the local `processedRestaurants` array. -/
structure LoopState where
  processedCount : ℕ
  results : List EnrichedRestaurant
deriving DecidableEq

/-- One iteration of the loop for index `i`: both the try block (line 245)
and the catch branch (line 284) set `processedCount` to `i + 1`, and both
append exactly one record. -/
def loopBody (calculateBearing : ℚ → ℚ → ℚ → ℚ → ℚ)
    (calculateNewCoords : ℚ → ℚ → ℚ → ℚ → GeoPoint)
    (i : ℕ) (restaurant : Restaurant) (env : RecordEnv) (st : LoopState) :
    LoopState :=
  { processedCount := i + 1
    results := st.results
      ++ [recordResult calculateBearing calculateNewCoords restaurant env] }

/-- The loop of lines 241-286 from index `i` over the remaining records,
with `envs n` the environment observed while processing input index `n`. -/
def runLoopFrom (calculateBearing : ℚ → ℚ → ℚ → ℚ → ℚ)
    (calculateNewCoords : ℚ → ℚ → ℚ → ℚ → GeoPoint)
    (envs : ℕ → RecordEnv) : ℕ → List Restaurant → LoopState → LoopState
  | _, [], st => st
  | i, restaurant :: rest, st =>
      runLoopFrom calculateBearing calculateNewCoords envs (i + 1) rest
        (loopBody calculateBearing calculateNewCoords i restaurant (envs i) st)

/-- The React state touched by `processRestaurants`: `isLoading`,
`processedCount`, `totalCount` and `restaurants` (lines 38-42). -/
structure PipelineState where
  isLoading : Bool
  processedCount : ℕ
  totalCount : ℕ
  restaurants : List EnrichedRestaurant
deriving DecidableEq

/-- The `useState` initial values of lines 38-42. -/
def initialState : PipelineState :=
  { isLoading := false, processedCount := 0, totalCount := 0, restaurants := [] }

/-- The state right after the run prologue of lines 235-237:
`setIsLoading(true)`, `setProcessedCount(0)`,
`setTotalCount(restaurantData.length)`. -/
def runStartState (restaurantData : List Restaurant) (s : PipelineState) :
    PipelineState :=
  { s with
    isLoading := true
    processedCount := 0
    totalCount := restaurantData.length }

/-- `processRestaurants` (lines 233-293): prologue, the per-record loop, and
the epilogue of lines 289-292 (`setRestaurants`, `setIsLoading(false)`,
`setProcessedCount(0)`, `setTotalCount(0)`). Returns the final state. -/
def processRestaurants (calculateBearing : ℚ → ℚ → ℚ → ℚ → ℚ)
    (calculateNewCoords : ℚ → ℚ → ℚ → ℚ → GeoPoint)
    (restaurantData : List Restaurant) (envs : ℕ → RecordEnv)
    (s : PipelineState) : PipelineState :=
  let s1 := runStartState restaurantData s
  let st := runLoopFrom calculateBearing calculateNewCoords envs 0 restaurantData
    { processedCount := s1.processedCount, results := [] }
  { s1 with
    isLoading := false
    processedCount := 0
    totalCount := 0
    restaurants := st.results }

/-- The loop state observed after the first `k` records of a run have been
processed: the loop of lines 241-286 run over the length-`k` input
prelist. -/
def midRunState (calculateBearing : ℚ → ℚ → ℚ → ℚ → ℚ)
    (calculateNewCoords : ℚ → ℚ → ℚ → ℚ → GeoPoint)
    (restaurantData : List Restaurant) (envs : ℕ → RecordEnv) (k : ℕ) :
    LoopState :=
  runLoopFrom calculateBearing calculateNewCoords envs 0
    (restaurantData.take k) { processedCount := 0, results := [] }

/-- The pure list of records appended by the loop, one per input, starting
from input index `i`. -/
def enrichFrom (calculateBearing : ℚ → ℚ → ℚ → ℚ → ℚ)
    (calculateNewCoords : ℚ → ℚ → ℚ → ℚ → GeoPoint)
    (envs : ℕ → RecordEnv) : ℕ → List Restaurant → List EnrichedRestaurant
  | _, [] => []
  | i, restaurant :: rest =>
      recordResult calculateBearing calculateNewCoords restaurant (envs i)
        :: enrichFrom calculateBearing calculateNewCoords envs (i + 1) rest

lemma recordResult_base (bf : ℚ → ℚ → ℚ → ℚ → ℚ)
    (df : ℚ → ℚ → ℚ → ℚ → GeoPoint) (restaurant : Restaurant)
    (env : RecordEnv) : (recordResult bf df restaurant env).base = restaurant := by
  unfold recordResult
  split <;> rfl

lemma runLoopFrom_results (bf : ℚ → ℚ → ℚ → ℚ → ℚ)
    (df : ℚ → ℚ → ℚ → ℚ → GeoPoint) (envs : ℕ → RecordEnv) :
    ∀ (restaurantData : List Restaurant) (i : ℕ) (st : LoopState),
      (runLoopFrom bf df envs i restaurantData st).results
        = st.results ++ enrichFrom bf df envs i restaurantData := by
  intro restaurantData
  induction restaurantData with
  | nil => intro i st; simp [runLoopFrom, enrichFrom]
  | cons restaurant rest ih =>
      intro i st
      rw [runLoopFrom, ih, enrichFrom]
      simp [loopBody]

lemma runLoopFrom_count (bf : ℚ → ℚ → ℚ → ℚ → ℚ)
    (df : ℚ → ℚ → ℚ → ℚ → GeoPoint) (envs : ℕ → RecordEnv) :
    ∀ (restaurantData : List Restaurant) (i : ℕ) (st : LoopState),
      restaurantData ≠ [] →
      (runLoopFrom bf df envs i restaurantData st).processedCount
        = i + restaurantData.length := by
  intro restaurantData
  induction restaurantData with
  | nil => intro i st h; exact absurd rfl h
  | cons restaurant rest ih =>
      intro i st _
      cases rest with
      | nil => simp [runLoopFrom, loopBody]
      | cons r2 rest2 =>
          rw [runLoopFrom, ih (i + 1) _ (by simp)]
          simp [List.length_cons]
          omega

lemma enrichFrom_map_base (bf : ℚ → ℚ → ℚ → ℚ → ℚ)
    (df : ℚ → ℚ → ℚ → ℚ → GeoPoint) (envs : ℕ → RecordEnv) :
    ∀ (restaurantData : List Restaurant) (i : ℕ),
      (enrichFrom bf df envs i restaurantData).map EnrichedRestaurant.base
        = restaurantData := by
  intro restaurantData
  induction restaurantData with
  | nil => intro i; rfl
  | cons restaurant rest ih =>
      intro i
      rw [enrichFrom, List.map_cons, recordResult_base, ih]

lemma enrichFrom_getElem (bf : ℚ → ℚ → ℚ → ℚ → ℚ)
    (df : ℚ → ℚ → ℚ → ℚ → GeoPoint) (envs : ℕ → RecordEnv) :
    ∀ (restaurantData : List Restaurant) (k i : ℕ) (h : i < restaurantData.length),
      (enrichFrom bf df envs k restaurantData)[i]?
        = some (recordResult bf df (restaurantData.get ⟨i, h⟩) (envs (k + i))) := by
  intro restaurantData
  induction restaurantData with
  | nil => intro k i h; simp at h
  | cons restaurant rest ih =>
      intro k i h
      cases i with
      | zero => simp [enrichFrom]
      | succ j =>
          have hj : j < rest.length := by simpa using h
          rw [enrichFrom]
          have := ih (k + 1) j hj
          simp only [List.getElem?_cons_succ, this, List.get_cons_succ]
          have harg : k + 1 + j = k + (j + 1) := by omega
          rw [harg]

lemma processRestaurants_restaurants (bf : ℚ → ℚ → ℚ → ℚ → ℚ)
    (df : ℚ → ℚ → ℚ → ℚ → GeoPoint) (restaurantData : List Restaurant)
    (envs : ℕ → RecordEnv) (s : PipelineState) :
    (processRestaurants bf df restaurantData envs s).restaurants
      = enrichFrom bf df envs 0 restaurantData := by
  unfold processRestaurants
  simp [runLoopFrom_results]

/-- Claim C1: for every input list and every behavior of the collaborators —
including the one where every road, weather and shadow call fails, and even
when some records' processing throws — the run terminates with exactly one
output record per input record, in input order (the `base` projection of the
output list is the input list), so its length equals the input length; the
run is a total function, never failing as a whole. -/
theorem run_length_order (calculateBearing : ℚ → ℚ → ℚ → ℚ → ℚ)
    (calculateNewCoords : ℚ → ℚ → ℚ → ℚ → GeoPoint)
    (restaurantData : List Restaurant) (envs : ℕ → RecordEnv)
    (s : PipelineState) :
    ((processRestaurants calculateBearing calculateNewCoords restaurantData envs s).restaurants).map
        EnrichedRestaurant.base = restaurantData
    ∧ ((processRestaurants calculateBearing calculateNewCoords restaurantData envs s).restaurants).length
        = restaurantData.length := by
  have h1 := processRestaurants_restaurants calculateBearing calculateNewCoords
    restaurantData envs s
  constructor
  · rw [h1, enrichFrom_map_base]
  · rw [h1]
    have := congrArg List.length
      (enrichFrom_map_base calculateBearing calculateNewCoords envs restaurantData 0)
    simpa using this

/-- Claim C2: if the processing of record `i` throws, the output list still
carries, at position `i`, exactly the failure-default record — terrace at
the record's own location, `no_shade`, `not_cloudy`, `not_sunny` — and the
processed counter has still advanced to `i + 1` once that record is done. -/
theorem run_failure_default (calculateBearing : ℚ → ℚ → ℚ → ℚ → ℚ)
    (calculateNewCoords : ℚ → ℚ → ℚ → ℚ → GeoPoint)
    (restaurantData : List Restaurant) (envs : ℕ → RecordEnv)
    (s : PipelineState) (i : ℕ) (h : i < restaurantData.length)
    (ht : (envs i).throws = true) :
    ((processRestaurants calculateBearing calculateNewCoords restaurantData envs s).restaurants)[i]?
        = some (failureDefault (restaurantData.get ⟨i, h⟩))
    ∧ (midRunState calculateBearing calculateNewCoords restaurantData envs (i + 1)).processedCount
        = i + 1 := by
  constructor
  · rw [processRestaurants_restaurants,
      enrichFrom_getElem calculateBearing calculateNewCoords envs restaurantData 0 i h]
    unfold recordResult
    rw [Nat.zero_add, ht]
    simp
  · unfold midRunState
    have hlen : (restaurantData.take (i + 1)).length = i + 1 := by
      rw [List.length_take]
      omega
    have hne : restaurantData.take (i + 1) ≠ [] := by
      intro hcon
      rw [hcon] at hlen
      simp at hlen
    rw [runLoopFrom_count calculateBearing calculateNewCoords envs _ 0 _ hne, hlen]
    omega

/-- A concrete geodesic-bearing stand-in for the witnesses. -/
def bfW : ℚ → ℚ → ℚ → ℚ → ℚ := fun _ _ _ _ => 0

/-- A concrete terrace-placement stand-in for the witnesses. -/
def dfW : ℚ → ℚ → ℚ → ℚ → GeoPoint := fun lat lng _ _ => ⟨lat, lng⟩

/-- A concrete input record for the witnesses. -/
def rA : Restaurant := ⟨"1", 0, 0, "A"⟩

/-- A second concrete input record for the witnesses. -/
def rB : Restaurant := ⟨"2", 1, 1, "B"⟩

/-- A record environment whose processing throws. -/
def envThrow : RecordEnv := ⟨none, ⟨true, 12, some false⟩, none, true⟩

/-- A record environment whose processing succeeds (with every collaborator
call failing, which the source absorbs locally). -/
def envOk : RecordEnv := ⟨none, ⟨true, 12, some false⟩, some 0, false⟩

/-- Claim C2 witness: a one-record run whose single record throws yields the
failure-default record at position 0 with the counter advanced to 1. -/
theorem run_failure_default_witness :
    ((processRestaurants bfW dfW [rA] (fun _ => envThrow) initialState).restaurants)[0]?
        = some (failureDefault (List.get [rA] ⟨0, by decide⟩))
    ∧ (midRunState bfW dfW [rA] (fun _ => envThrow) 1).processedCount = 1 :=
  run_failure_default bfW dfW [rA] (fun _ => envThrow) initialState 0
    (by decide) rfl

/-- Claim C7, counterexample: at the start of a run on a one-record input,
line 237 sets `totalCount` to the input length 1, not 0 — so `processed`
and `total` are not "both reset to 0" at run start. -/
theorem run_progress_start_total :
    (runStartState [rA] initialState).processedCount = 0
    ∧ (runStartState [rA] initialState).totalCount = 1
    ∧ ¬ ((runStartState [rA] initialState).processedCount = 0
        ∧ (runStartState [rA] initialState).totalCount = 0) := by
  refine ⟨rfl, rfl, ?_⟩
  intro hcon
  simp [runStartState] at hcon

/-- Claim C7, amended: at the start of a run `processedCount` is reset to 0
and `totalCount` is set to the input length; once the run completes both are
reset to (0, 0); and a run on the empty input returns the empty result list
(so on the empty input the start state is (0, 0) as well). -/
theorem run_progress_reset (calculateBearing : ℚ → ℚ → ℚ → ℚ → ℚ)
    (calculateNewCoords : ℚ → ℚ → ℚ → ℚ → GeoPoint)
    (restaurantData : List Restaurant) (envs : ℕ → RecordEnv)
    (s : PipelineState) :
    (runStartState restaurantData s).processedCount = 0
    ∧ (runStartState restaurantData s).totalCount = restaurantData.length
    ∧ (processRestaurants calculateBearing calculateNewCoords restaurantData envs s).processedCount = 0
    ∧ (processRestaurants calculateBearing calculateNewCoords restaurantData envs s).totalCount = 0
    ∧ (processRestaurants calculateBearing calculateNewCoords [] envs s).restaurants = [] :=
  ⟨rfl, rfl, rfl, rfl, rfl⟩

/-- An observable step of a pipeline run: the completed processing of the
record at an input index, or the pacing pause of line 273. -/
inductive Event
  | record (i : ℕ)
  | delay
deriving DecidableEq

/-- The events emitted while processing input index `i`: the try block ends
with the 200 ms pause of line 273, while the catch branch of lines 274-285
appends the defaults and moves straight to the next record with no pause. -/
def recordEvents (i : ℕ) (env : RecordEnv) : List Event :=
  if env.throws then [Event.record i] else [Event.record i, Event.delay]

/-- The event trace of the loop from input index `i` with `n` records left. -/
def traceFrom (envs : ℕ → RecordEnv) : ℕ → ℕ → List Event
  | _, 0 => []
  | i, n + 1 => recordEvents i (envs i) ++ traceFrom envs (i + 1) n

/-- The event trace of a whole run of `processRestaurants`. -/
def runTrace (restaurantData : List Restaurant) (envs : ℕ → RecordEnv) :
    List Event :=
  traceFrom envs 0 restaurantData.length

/-- Whether an event is the completion of a record. -/
def isRecordEvent : Event → Bool
  | Event.record _ => true
  | Event.delay => false

/-- `pacedOk tr` holds when no two record completions are adjacent in `tr`,
i.e. a pause separates every pair of consecutively processed records. -/
def pacedOk : List Event → Bool
  | [] => true
  | [_] => true
  | a :: b :: rest => (!(isRecordEvent a && isRecordEvent b)) && pacedOk (b :: rest)

lemma traceFrom_head (envs : ℕ → RecordEnv) (i n : ℕ) :
    ∃ tail, traceFrom envs i (n + 1) = Event.record i :: tail := by
  rw [traceFrom]
  unfold recordEvents
  by_cases h : (envs i).throws <;> simp [h]

lemma traceFrom_adjacent (envs : ℕ → RecordEnv) :
    ∀ (d n k : ℕ), d + 1 < n → (envs (k + d)).throws = false →
      ∃ l₁ l₂, traceFrom envs k n
        = l₁ ++ Event.record (k + d) :: Event.delay :: Event.record (k + d + 1) :: l₂ := by
  intro d
  induction d with
  | zero =>
      intro n k hn hs
      obtain ⟨m, rfl⟩ : ∃ m, n = m + 2 := ⟨n - 2, by omega⟩
      rw [traceFrom]
      rw [Nat.add_zero] at hs
      obtain ⟨tail, htail⟩ := traceFrom_head envs (k + 1) m
      refine ⟨[], tail, ?_⟩
      rw [htail, recordEvents, hs]
      simp
  | succ d ih =>
      intro n k hn hs
      obtain ⟨m, rfl⟩ : ∃ m, n = m + 1 := ⟨n - 1, by omega⟩
      rw [traceFrom]
      have hs2 : (envs (k + 1 + d)).throws = false := by
        have : k + 1 + d = k + (d + 1) := by omega
        rw [this]
        exact hs
      obtain ⟨l₁, l₂, heq⟩ := ih m (k + 1) (by omega) hs2
      refine ⟨recordEvents k (envs k) ++ l₁, l₂, ?_⟩
      rw [heq]
      have h1 : k + 1 + d = k + (d + 1) := by omega
      rw [h1]
      simp

/-- Claim C8, counterexample: in a two-record run whose first record throws,
the trace puts the completion of record 1 immediately after that of
record 0, with no pacing pause between them — the pause of line 273 sits
inside the try block only, so a failed record is not followed by a delay. -/
theorem run_pacing_failure :
    runTrace [rA, rB] (fun _ => envThrow)
        = [Event.record 0, Event.record 1]
    ∧ pacedOk (runTrace [rA, rB] (fun _ => envThrow)) = false := by
  constructor <;> rfl

/-- Claim C8, amended: after each successfully processed record (one whose
try block ran to completion), the pipeline performs the fixed pacing delay
before beginning the next record. -/
theorem run_pacing_after_success (restaurantData : List Restaurant)
    (envs : ℕ → RecordEnv) (i : ℕ) (hi : i + 1 < restaurantData.length)
    (hs : (envs i).throws = false) :
    ∃ l₁ l₂, runTrace restaurantData envs
      = l₁ ++ Event.record i :: Event.delay :: Event.record (i + 1) :: l₂ := by
  have := traceFrom_adjacent envs i restaurantData.length 0 hi
    (by rw [Nat.zero_add]; exact hs)
  simpa using this

/-- Claim C8 witness: in a two-record run whose records both succeed, a
pause separates the completion of record 0 from the start of record 1. -/
theorem run_pacing_after_success_witness :
    ∃ l₁ l₂, runTrace [rA, rB] (fun _ => envOk)
      = l₁ ++ Event.record 0 :: Event.delay :: Event.record 1 :: l₂ :=
  run_pacing_after_success [rA, rB] (fun _ => envOk) 0 (by decide) rfl

end ShadeSpot
